import Mathlib

/-!
Verification of the rainmaker numerical pipeline (src/rainmaker/rainmaker.py).

The core pipeline is embedded shallowly over the real numbers:

* numpy arrays become functions `ℕ → ℝ` together with an explicit length
  (`ObsData.N` for the observed table, the constant 300 for the fine grid);
  pointwise numpy arithmetic becomes pointwise real arithmetic;
* `numpy.polynomial.polynomial.polyfit` (ordinary least squares on the
  Vandermonde system, lowest power first) is embedded through its normal
  equations `(VᵀV)⁻¹ Vᵀ y`, which agree with numpy's least-squares solution
  whenever `VᵀV` is invertible (the well-determined case `N > deg` with
  distinct abscissae); on a singular system Mathlib's matrix inverse is the
  junk value `0` whereas numpy returns the minimum-norm solution — no theorem
  below depends on the junk values;
* the IEEE-754 special values produced by `np.sqrt(2.0 / rg) * r` (the one
  place where the script relies on them, under the module-level
  `np.seterr(divide='ignore', invalid='ignore')`) are modelled by the small
  inductive type `NVal` with `nan` and signed infinities;
* plotting calls are dropped: they consume the computed arrays and the raw
  table but produce no value used by the computation.

Quantities that the script keeps in astropy units are embedded by their
numerical values; the two unit conversions that the computation itself
performs (`temp_fit.to(u.erg)` from keV and `const.m_p.to(u.g)`) become
multiplication by the explicit constants `keV_in_erg` and division by `mu_mp`.
-/

namespace Rainmaker

/-- One cluster's slice of the ACCEPT table, after `parse_data_table` /
`assign_units`: each column is a sequence of `N` per-bin values.  Only the
columns read by the core computation are listed (plus `nelec`/`neerr`, which
the core receives but never reads — the remaining columns `Kitpl`, `Kflat`,
`Kerr`, `Mgrav`, `Merr`, `Lambda`, `tcool52/32` and errors are likewise never
read by the computation, only by plotting). Values are the numerical parts of
the table's quantities: radii in Mpc, pressures in dyn cm⁻², temperatures in
keV, densities in cm⁻³. -/
structure ObsData where
  N : ℕ
  Rin : ℕ → ℝ
  Rout : ℕ → ℝ
  nelec : ℕ → ℝ
  neerr : ℕ → ℝ
  Pitpl : ℕ → ℝ
  Perr : ℕ → ℝ
  Tx : ℕ → ℝ
  Txerr : ℕ → ℝ

/-- The tuple returned by `extrapolate_radius`: observed bin-midpoint radii
and their natural logs (`N` entries), and the fine extrapolation grid
(`nfine = 300` entries): `log10_r_fine = np.arange(300.)/100. - 3.`,
`r_fine = 10**log10_r_fine`, `ln_r_fine = np.log(r_fine)`. -/
structure RadiusPackage where
  r : ℕ → ℝ
  ln_r : ℕ → ℝ
  r_fine : ℕ → ℝ
  log10_r_fine : ℕ → ℝ
  ln_r_fine : ℕ → ℝ
  nfine : ℕ

/-- `extrapolate_radius(data)`: `r = (data['Rin'] + data['Rout']) * 0.5`,
`ln_r = np.log(r.value)`, `log10_r_fine = np.arange(300.)/100. - 3.`,
`r_fine = (10**log10_r_fine)`, `ln_r_fine = np.log(r_fine.value)`.
`Real.log` is the natural logarithm, and its (junk) value at a non-positive
argument stands in for the float `nan`/`-inf` the script silently produces
there. -/
noncomputable def extrapolate_radius (data : ObsData) : RadiusPackage :=
  let r : ℕ → ℝ := fun k => (data.Rin k + data.Rout k) * 0.5
  let log10_r_fine : ℕ → ℝ := fun k => (k : ℝ) / 100 - 3
  let r_fine : ℕ → ℝ := fun k => (10 : ℝ) ^ (log10_r_fine k)
  { r := r
    ln_r := fun k => Real.log (r k)
    r_fine := r_fine
    log10_r_fine := log10_r_fine
    ln_r_fine := fun k => Real.log (r_fine k)
    nfine := 300 }

/-- Modelled exception set of `extrapolate_radius`: the body only performs
array arithmetic and `np.log`; under the module-level
`np.seterr(divide='ignore', invalid='ignore')` (rainmaker.py line 46) a
non-positive radius makes `np.log` return `-inf`/`nan` with its warning
suppressed, and no exception is ever raised.  There is no radius validation
anywhere in the function, so the exception set is empty. -/
def extrapolate_radius_fails (_data : ObsData) : Prop := False

/-- numpy's polynomial evaluation convention, used through
`poly.polyval(x, coeffs)`: `p(x) = c_0 + c_1 x + … + c_deg x^deg`, the
coefficient at index `k` multiplying the `k`-th power ("lowest power
first", as the source's own comment at rainmaker.py lines 193-198 notes). -/
noncomputable def polyval (deg : ℕ) (c : ℕ → ℝ) (x : ℝ) : ℝ :=
  ∑ k in Finset.range (deg + 1), c k * x ^ k

/-- The Vandermonde design matrix of `poly.polyfit`: row `i` is
`(1, x_i, x_i², …, x_i^deg)`. -/
noncomputable def polyfitMatrix (n deg : ℕ) (x : ℕ → ℝ) :
    Matrix (Fin n) (Fin (deg + 1)) ℝ :=
  fun i j => x (i : ℕ) ^ (j : ℕ)

/-- `numpy.polynomial.polynomial.polyfit(x, y, deg)`: the least-squares
solution of `V c ≈ y` over the Vandermonde matrix `V`, coefficients lowest
power first, embedded through its normal equations `c = (VᵀV)⁻¹ Vᵀ y`.
When `VᵀV` is invertible this is exactly the least-squares solution numpy
returns; when it is singular (e.g. fewer points than `deg + 1`) Mathlib's
matrix inverse yields the junk value `0` where numpy returns the
minimum-norm solution — no theorem in this file depends on the coefficients
produced in the singular case.  Indices `≥ deg + 1` are padded with `0`. -/
noncomputable def polyfit (n : ℕ) (x y : ℕ → ℝ) (deg : ℕ) : ℕ → ℝ :=
  let V := polyfitMatrix n deg x
  let cvec : Fin (deg + 1) → ℝ :=
    ((V.transpose * V)⁻¹ * V.transpose).mulVec fun i => y (i : ℕ)
  fun k => if h : k < deg + 1 then cvec ⟨k, h⟩ else 0

/-- Modelled exception set of `fit_polynomial`: the repository function
performs no input validation of its own; `poly.polyfit` raises only for an
empty abscissa vector or an invalid degree (the degree here is a natural
number, so only emptiness remains).  A rank-deficient system — in
particular fewer points than `deg + 1` — produces a `RankWarning`, which is
a warning, not an exception: the call still returns coefficients. -/
def fit_polynomial_fails (data : ObsData) (_deg : ℕ) : Prop := data.N = 0

/-- The tuple returned by `fit_polynomial`:
`(fit, r, fit_fine, r_fine, coeffs)`. -/
structure FitPackage where
  fit : ℕ → ℝ
  r : ℕ → ℝ
  fit_fine : ℕ → ℝ
  r_fine : ℕ → ℝ
  coeffs : ℕ → ℝ

/-- `fit_polynomial(data, ln_xray_property, deg, whatIsFit)`:
`coeffs = poly.polyfit(ln_r, ln_xray_property, deg)`;
`fit = np.exp(poly.polyval(ln_r, coeffs))`;
`fit_fine = np.exp(poly.polyval(ln_r_fine, coeffs))`.
The `whatIsFit` label only feeds the progress `print` and is dropped. -/
noncomputable def fit_polynomial (data : ObsData) (ln_xray_property : ℕ → ℝ)
    (deg : ℕ) : FitPackage :=
  let rp := extrapolate_radius data
  let coeffs := polyfit data.N rp.ln_r ln_xray_property deg
  { fit := fun k => Real.exp (polyval deg coeffs (rp.ln_r k))
    r := rp.r
    fit_fine := fun k => Real.exp (polyval deg coeffs (rp.ln_r_fine k))
    r_fine := rp.r_fine
    coeffs := coeffs }

/-- The dictionary returned by `logTemp_fit`. -/
structure TempPackage where
  temp_coeffs : ℕ → ℝ
  temp_fit : ℕ → ℝ
  temp_fit_fine : ℕ → ℝ
  ln_terr : ℕ → ℝ

/-- `logTemp_fit(data)`: degree-2 fit of `ln Tx` against `ln r`, and the
log-space relative error `ln_terr = np.log(data['Txerr'] / data['Tx'])`.
The keV unit tags attached in the source do not change the numerical
values; the plotting call is dropped. -/
noncomputable def logTemp_fit (data : ObsData) : TempPackage :=
  let ln_t : ℕ → ℝ := fun k => Real.log (data.Tx k)
  let ln_terr : ℕ → ℝ := fun k => Real.log (data.Txerr k / data.Tx k)
  let fp := fit_polynomial data ln_t 2
  { temp_coeffs := fp.coeffs
    temp_fit := fp.fit
    temp_fit_fine := fp.fit_fine
    ln_terr := ln_terr }

/-- The dictionary returned by `logPressure_fit`. -/
structure PressPackage where
  pressure_coeffs : ℕ → ℝ
  pressure_fit : ℕ → ℝ
  pressure_fit_fine : ℕ → ℝ
  ln_perr : ℕ → ℝ

/-- `logPressure_fit(data)`: degree-3 fit of `ln Pitpl` against `ln r`, and
the log-space relative error `ln_perr = np.log(data['Perr'] / data['Pitpl'])`.
The dyn cm⁻² unit tags do not change the numerical values; the plotting
call is dropped. -/
noncomputable def logPressure_fit (data : ObsData) : PressPackage :=
  let ln_p : ℕ → ℝ := fun k => Real.log (data.Pitpl k)
  let ln_perr : ℕ → ℝ := fun k => Real.log (data.Perr k / data.Pitpl k)
  let fp := fit_polynomial data ln_p 3
  { pressure_coeffs := fp.coeffs
    pressure_fit := fp.fit
    pressure_fit_fine := fp.fit_fine
    ln_perr := ln_perr }

/-- `mu_mp = const.m_p.to(u.g)`: the proton mass in grams (CODATA 2018, as
shipped by astropy: 1.67262192369e-27 kg). -/
noncomputable def mu_mp : ℝ := 1.67262192369e-24

/-- The conversion factor applied by `temp_fit.to(u.erg)` on a quantity in
keV: 1 keV = 1.602176634e-9 erg (exact since the 2019 SI redefinition). -/
noncomputable def keV_in_erg : ℝ := 1.602176634e-9

/-- The loop at rainmaker.py lines 382-390: starting from zeros,
`for i in np.arange(1, 4): dlnp_dlnr += float(i) * pressure_coeffs[i] *
ln_r**(float(i - 1))` — the analytic log-log slope of the fitted cubic at
abscissa `x`. -/
noncomputable def dlnp_dlnr (pressure_coeffs : ℕ → ℝ) (x : ℝ) : ℝ :=
  (List.range' 1 3).foldl
    (fun acc (i : ℕ) => acc + (i : ℝ) * pressure_coeffs i * x ^ (i - 1)) 0

/-- The dictionary returned by `grav_accel` (`rgpackage`), together with the
intermediate arrays `dlnp_dlnr`, `dlnp_dlnr_fine` and `relerr`, which are
locals in the source and are exposed here so that theorems can speak about
them directly. -/
structure GravPackage where
  r : ℕ → ℝ
  ln_r : ℕ → ℝ
  r_fine : ℕ → ℝ
  log10_r_fine : ℕ → ℝ
  ln_r_fine : ℕ → ℝ
  rg : ℕ → ℝ
  rg_fine : ℕ → ℝ
  rgerr : ℕ → ℝ
  relerr : ℕ → ℝ
  dlnp_dlnr_pts : ℕ → ℝ
  dlnp_dlnr_fine_pts : ℕ → ℝ

/-- The full return value of `grav_accel`:
`(rgpackage, temppackage, pressurepackage, radiuspackage)`. -/
structure GravResult where
  rgpackage : GravPackage
  temppackage : TempPackage
  pressurepackage : PressPackage
  radiuspackage : RadiusPackage

/-- `grav_accel(data)` (rainmaker.py lines 362-426):
`rg = -temp_fit.to(u.erg) / mu_mp * dlnp_dlnr` pointwise on both grids;
`relerr = np.sqrt(2.*np.exp(ln_perr)**2 + np.exp(ln_terr)**2)`;
`rgerr = (temp_fit.to(u.erg) / mu_mp) * relerr`.
The plotting call is dropped. -/
noncomputable def grav_accel (data : ObsData) : GravResult :=
  let tp := logTemp_fit data
  let pp := logPressure_fit data
  let rp := extrapolate_radius data
  let dl : ℕ → ℝ := fun k => dlnp_dlnr pp.pressure_coeffs (rp.ln_r k)
  let dlf : ℕ → ℝ := fun k => dlnp_dlnr pp.pressure_coeffs (rp.ln_r_fine k)
  let rg : ℕ → ℝ := fun k => -(tp.temp_fit k * keV_in_erg) / mu_mp * dl k
  let rg_fine : ℕ → ℝ :=
    fun k => -(tp.temp_fit_fine k * keV_in_erg) / mu_mp * dlf k
  let relerr : ℕ → ℝ := fun k =>
    Real.sqrt (2 * Real.exp (pp.ln_perr k) ^ 2 + Real.exp (tp.ln_terr k) ^ 2)
  let rgerr : ℕ → ℝ := fun k => tp.temp_fit k * keV_in_erg / mu_mp * relerr k
  { rgpackage :=
      { r := rp.r
        ln_r := rp.ln_r
        r_fine := rp.r_fine
        log10_r_fine := rp.log10_r_fine
        ln_r_fine := rp.ln_r_fine
        rg := rg
        rg_fine := rg_fine
        rgerr := rgerr
        relerr := relerr
        dlnp_dlnr_pts := dl
        dlnp_dlnr_fine_pts := dlf }
    temppackage := tp
    pressurepackage := pp
    radiuspackage := rp }

/-- `coolingFunction(kT)` (rainmaker.py lines 429-458): the Tozzi & Norman
(2001) parametrization
`(C1 * kT**(-1.7) + C2 * kT**0.5 + C3) * 1.0e-22` with the source's local
constants `C1 = 8.6e-3`, `C2 = 5.8e-2`, `C3 = 6.3e-2` (metallicity
Z = 0.3 Z_solar); `kT` is the numerical value of the temperature in keV and
the powers are real powers (`Real.rpow`). -/
noncomputable def coolingFunction (kT : ℝ) : ℝ :=
  let C1 : ℝ := 8.6e-3
  let C2 : ℝ := 5.8e-2
  let C3 : ℝ := 6.3e-2
  let alpha : ℝ := -1.7
  let beta : ℝ := 0.5
  (C1 * kT ^ alpha + C2 * kT ^ beta + C3) * 1.0e-22

/-- IEEE-754 special values as numpy produces them under
`np.seterr(divide='ignore', invalid='ignore')`: a finite value, the two
infinities, or `nan`. -/
inductive NVal where
  | fin (x : ℝ)
  | posInf
  | negInf
  | nan

/-- numpy float division of finite `a` by finite `b` (warnings suppressed):
`a / 0` is a signed infinity for `a ≠ 0` and `nan` for `a = 0`. -/
noncomputable def npDiv (a b : ℝ) : NVal :=
  if b = 0 then
    if a = 0 then NVal.nan else if 0 < a then NVal.posInf else NVal.negInf
  else NVal.fin (a / b)

/-- `np.sqrt` on an extended value: `nan` on negative finite arguments and
on `-inf`/`nan`, `+inf` on `+inf`. -/
noncomputable def npSqrt : NVal → NVal
  | NVal.fin x => if x < 0 then NVal.nan else NVal.fin (Real.sqrt x)
  | NVal.posInf => NVal.posInf
  | NVal.negInf => NVal.nan
  | NVal.nan => NVal.nan

/-- numpy multiplication of an extended value by a finite real:
`±inf * 0 = nan`, otherwise signs propagate. -/
noncomputable def npMul : NVal → ℝ → NVal
  | NVal.fin x, r => NVal.fin (x * r)
  | NVal.posInf, r =>
      if 0 < r then NVal.posInf else if r < 0 then NVal.negInf else NVal.nan
  | NVal.negInf, r =>
      if 0 < r then NVal.negInf else if r < 0 then NVal.posInf else NVal.nan
  | NVal.nan, _ => NVal.nan

/-- numpy division of a finite real by an extended value:
`a / ±inf = 0`, `a / nan = nan`, finite denominators as in `npDiv`. -/
noncomputable def npRdiv (a : ℝ) : NVal → NVal
  | NVal.fin y => npDiv a y
  | NVal.posInf => NVal.fin 0
  | NVal.negInf => NVal.fin 0
  | NVal.nan => NVal.nan

/-- `np.sqrt(2.0 / g) * r` — the freefall-time computation applied to the
gravitational acceleration `g` and radius `r` at one grid point
(rainmaker.py lines 471-472), with numpy's suppressed-warning float
semantics made explicit. -/
noncomputable def npFreefall (g r : ℝ) : NVal :=
  npMul (npSqrt (npDiv 2 g)) r

/-- The quantities computed by `timescales` (rainmaker.py lines 461-548),
together with its intermediate arrays; the remainder of the function only
plots. -/
structure TimescaleResult where
  grav : GravResult
  tff : ℕ → NVal
  tff_fine : ℕ → NVal
  nelec : ℕ → ℝ
  nelec_fine : ℕ → ℝ
  capital_lambda : ℕ → ℝ
  capital_lambda_fine : ℕ → ℝ
  tcool : ℕ → ℝ
  tcool_fine : ℕ → ℝ
  precip_ratio_fine : ℕ → NVal

/-- `timescales(data)`:
`tff = np.sqrt(2.0 / rg) * r` on both grids;
`nelec = pressure_fit / temp_fit` (the fitted-profile proxy, not the
observed `nelec` column);
`capital_lambda = coolingFunction(temp_fit)`;
`tcool = (3/2) * (1.89*pressure_fit) / (nelec**2 / 1.07) / capital_lambda`;
`precip_ratio_fine = tcool_fine / tff_fine` (the source converts both
operands to years first — a fixed positive conversion factor on each, whose
ratio rescales this quantity by a positive constant and is not modelled).
All plotting is dropped. -/
noncomputable def timescales (data : ObsData) : TimescaleResult :=
  let g := grav_accel data
  let tff : ℕ → NVal := fun k => npFreefall (g.rgpackage.rg k) (g.rgpackage.r k)
  let tff_fine : ℕ → NVal :=
    fun k => npFreefall (g.rgpackage.rg_fine k) (g.rgpackage.r_fine k)
  let nelec : ℕ → ℝ :=
    fun k => g.pressurepackage.pressure_fit k / g.temppackage.temp_fit k
  let nelec_fine : ℕ → ℝ :=
    fun k => g.pressurepackage.pressure_fit_fine k / g.temppackage.temp_fit_fine k
  let capital_lambda : ℕ → ℝ := fun k => coolingFunction (g.temppackage.temp_fit k)
  let capital_lambda_fine : ℕ → ℝ :=
    fun k => coolingFunction (g.temppackage.temp_fit_fine k)
  let tcool : ℕ → ℝ := fun k =>
    3 / 2 * (1.89 * g.pressurepackage.pressure_fit k) / (nelec k ^ 2 / 1.07) /
      capital_lambda k
  let tcool_fine : ℕ → ℝ := fun k =>
    3 / 2 * (1.89 * g.pressurepackage.pressure_fit_fine k) /
      (nelec_fine k ^ 2 / 1.07) / capital_lambda_fine k
  { grav := g
    tff := tff
    tff_fine := tff_fine
    nelec := nelec
    nelec_fine := nelec_fine
    capital_lambda := capital_lambda
    capital_lambda_fine := capital_lambda_fine
    tcool := tcool
    tcool_fine := tcool_fine
    precip_ratio_fine := fun k => npRdiv (tcool_fine k) (tff_fine k) }

/-- A concrete one-cluster table with two bins and every column identically
`1`, used to instantiate theorems at a concrete input. -/
noncomputable def exData : ObsData :=
  { N := 2
    Rin := fun _ => 1
    Rout := fun _ => 1
    nelec := fun _ => 1
    neerr := fun _ => 1
    Pitpl := fun _ => 1
    Perr := fun _ => 1
    Tx := fun _ => 1
    Txerr := fun _ => 1 }

/-- A concrete table with a single bin whose midpoint radius is `-1`. -/
noncomputable def negData : ObsData :=
  { exData with N := 1, Rin := fun _ => -1, Rout := fun _ => -1 }

/-- A concrete table with a single bin (fewer points than a cubic needs). -/
noncomputable def oneBinData : ObsData :=
  { exData with N := 1 }

/-- Concrete abscissae `x i = i` for instantiating the fit-recovery
property. -/
noncomputable def exX : ℕ → ℝ := fun i => (i : ℝ)

/-- Concrete ordinates `y i = 1 + i`, exactly the degree-1 polynomial with
coefficient vector `exC` evaluated at `exX`. -/
noncomputable def exY : ℕ → ℝ := fun i => 1 + (i : ℝ)

/-- The generating coefficients (constant 1, slope 1) for `exY`. -/
noncomputable def exC : ℕ → ℝ := fun _ => 1

/-- Unrolling the three-iteration slope loop: the computed quantity is
exactly `c₁ + 2 c₂ x + 3 c₃ x²`. -/
theorem dlnp_dlnr_eq (c : ℕ → ℝ) (x : ℝ) :
    dlnp_dlnr c x = c 1 + 2 * c 2 * x + 3 * c 3 * x ^ 2 := by
  have h : List.range' 1 3 = [1, 2, 3] := rfl
  simp only [dlnp_dlnr, h, List.foldl_cons, List.foldl_nil]
  norm_num

/-- The cubic `polyval 3 c` written out. -/
theorem polyval_three (c : ℕ → ℝ) (t : ℝ) :
    polyval 3 c t = c 0 + c 1 * t + c 2 * t ^ 2 + c 3 * t ^ 3 := by
  simp [polyval, Finset.sum_range_succ]

/-- The slope-loop value is the exact derivative of the fitted cubic. -/
theorem hasDerivAt_polyval_three (c : ℕ → ℝ) (x : ℝ) :
    HasDerivAt (fun t => polyval 3 c t)
      (c 1 + 2 * c 2 * x + 3 * c 3 * x ^ 2) x := by
  have h : HasDerivAt
      (fun t : ℝ => c 0 + c 1 * t + c 2 * t ^ 2 + c 3 * t ^ 3)
      (0 + c 1 * 1 + c 2 * ((2 : ℕ) * x ^ (2 - 1)) +
        c 3 * ((3 : ℕ) * x ^ (3 - 1))) x :=
    (((hasDerivAt_const x (c 0)).add
        ((hasDerivAt_id x).const_mul (c 1))).add
      ((hasDerivAt_pow 2 x).const_mul (c 2))).add
      ((hasDerivAt_pow 3 x).const_mul (c 3))
  have hfun : (fun t : ℝ => c 0 + c 1 * t + c 2 * t ^ 2 + c 3 * t ^ 3) =
      fun t => polyval 3 c t := by
    funext t
    rw [polyval_three]
  rw [hfun] at h
  convert h using 1
  push_cast
  ring

/-- When the normal matrix `VᵀV` is invertible and the data lie exactly on
the polynomial with coefficient vector `c` (index = power of the abscissa),
the embedded `polyfit` returns exactly `c`: its coefficients are ordered
lowest power first. -/
theorem polyfit_recovers (n deg : ℕ) (x y c : ℕ → ℝ)
    (hdet : IsUnit
      ((polyfitMatrix n deg x).transpose * polyfitMatrix n deg x).det)
    (hy : ∀ i, i < n → y i = polyval deg c (x i)) :
    ∀ k, k < deg + 1 → polyfit n x y deg k = c k := by
  intro k hk
  have hyv : (fun i : Fin n => y (i : ℕ)) =
      (polyfitMatrix n deg x).mulVec (fun j : Fin (deg + 1) => c (j : ℕ)) := by
    funext i
    rw [hy (i : ℕ) i.isLt]
    show polyval deg c (x (i : ℕ)) =
      Finset.univ.sum fun j : Fin (deg + 1) =>
        polyfitMatrix n deg x i j * c (j : ℕ)
    rw [polyval,
      ← Fin.sum_univ_eq_sum_range (fun k => c k * x (i : ℕ) ^ k) (deg + 1)]
    exact Finset.sum_congr rfl fun j _ => by rw [polyfitMatrix]; ring
  have hval : polyfit n x y deg k =
      (((polyfitMatrix n deg x).transpose * polyfitMatrix n deg x)⁻¹ *
        (polyfitMatrix n deg x).transpose).mulVec
          (fun i : Fin n => y (i : ℕ)) ⟨k, hk⟩ := by
    simp only [polyfit]
    rw [dif_pos hk]
  rw [hval, hyv, Matrix.mulVec_mulVec, Matrix.mul_assoc,
    Matrix.nonsing_inv_mul _ hdet, Matrix.one_mulVec]

/-- Claim C7 (as corrected): for every observation table the observed radii
are the bin midpoints `(Rin + Rout) / 2`; the fine grid has exactly 300
points whose log10 radii are `k/100 - 3`, evenly spaced with step `1/100`;
they lie in the range `[-3, 0)` — not `[-3, 3)` as the claim states. -/
theorem radial_grid_construction (data : ObsData) (k : ℕ) (hk : k < 300) :
    (extrapolate_radius data).r k = (data.Rin k + data.Rout k) * 0.5 ∧
    (extrapolate_radius data).nfine = 300 ∧
    (extrapolate_radius data).log10_r_fine k = (k : ℝ) / 100 - 3 ∧
    (extrapolate_radius data).log10_r_fine (k + 1) -
      (extrapolate_radius data).log10_r_fine k = 1 / 100 ∧
    -3 ≤ (extrapolate_radius data).log10_r_fine k ∧
    (extrapolate_radius data).log10_r_fine k < 0 ∧
    (extrapolate_radius data).r_fine k =
      (10 : ℝ) ^ ((extrapolate_radius data).log10_r_fine k) := by
  refine ⟨rfl, rfl, rfl, ?_, ?_, ?_, rfl⟩
  · show ((k + 1 : ℕ) : ℝ) / 100 - 3 - ((k : ℝ) / 100 - 3) = 1 / 100
    push_cast
    ring
  · show -3 ≤ (k : ℝ) / 100 - 3
    have h0 : (0 : ℝ) ≤ (k : ℝ) := Nat.cast_nonneg k
    linarith
  · show (k : ℝ) / 100 - 3 < 0
    have h0 : (k : ℝ) < 300 := by exact_mod_cast hk
    linarith

/-- Witness for claim C7's theorem at the concrete table `exData` and
index 0. -/
theorem radial_grid_construction_witness :
    (extrapolate_radius exData).r 0 = (exData.Rin 0 + exData.Rout 0) * 0.5 ∧
    (extrapolate_radius exData).nfine = 300 ∧
    (extrapolate_radius exData).log10_r_fine 0 = (0 : ℝ) / 100 - 3 ∧
    (extrapolate_radius exData).log10_r_fine 1 -
      (extrapolate_radius exData).log10_r_fine 0 = 1 / 100 ∧
    -3 ≤ (extrapolate_radius exData).log10_r_fine 0 ∧
    (extrapolate_radius exData).log10_r_fine 0 < 0 ∧
    (extrapolate_radius exData).r_fine 0 =
      (10 : ℝ) ^ ((extrapolate_radius exData).log10_r_fine 0) := by
  have h := radial_grid_construction exData 0 (by norm_num)
  simpa using h

/-- Claim C7 counterexample: the largest fine-grid log10 radius is the one
at index 299, and it equals `-0.01`; a grid of 300 points evenly spaced with
step `0.01` over `[-3, 3)` would instead end at `3 - 0.01 = 2.99`.  The fine
grid therefore does not span `[-3, 3)`. -/
theorem fine_grid_not_up_to_three :
    (extrapolate_radius exData).log10_r_fine 299 = -(1 / 100 : ℝ) ∧
    -(1 / 100 : ℝ) ≠ 3 - 1 / 100 := by
  constructor
  · show ((299 : ℕ) : ℝ) / 100 - 3 = -(1 / 100 : ℝ)
    norm_num
  · norm_num

/-- Claim C8 (as corrected): radial-grid construction never fails — there is
no radius validation, and `np.log`'s warnings are suppressed by the
module-level `np.seterr` — and it returns the midpoint radii unconditionally,
non-positive ones included. -/
theorem extrapolate_radius_never_fails (data : ObsData) :
    ¬ extrapolate_radius_fails data ∧
    ∀ k, (extrapolate_radius data).r k = (data.Rin k + data.Rout k) * 0.5 :=
  ⟨fun h => h, fun _ => rfl⟩

/-- Claim C8 counterexample: on a table whose only bin has
`Rin = Rout = -1` the construction does not fail and returns a grid whose
first radius is `-1 ≤ 0`, contradicting both "fails with `InvalidRadius`
whenever some `r_i ≤ 0`" and "no grid with a non-positive radius is ever
returned". -/
theorem negative_radius_grid_returned :
    ¬ extrapolate_radius_fails negData ∧
    (extrapolate_radius negData).r 0 = -1 ∧ ((-1 : ℝ) ≤ 0) := by
  refine ⟨fun h => h, ?_, by norm_num⟩
  show (negData.Rin 0 + negData.Rout 0) * 0.5 = -1
  show ((-1 : ℝ) + -1) * 0.5 = -1
  norm_num

/-- Claim C1: at every point of the observed grid and of the fine grid, the
computed logarithmic pressure slope equals
`c₁ + 2 c₂ (ln r) + 3 c₃ (ln r)²` for the degree-3 pressure coefficients,
and this expression is the exact derivative of the fitted cubic
`polyval 3 c` at every abscissa — analytic differentiation, no finite
differencing. -/
theorem pressure_log_slope_power_rule (data : ObsData) (k : ℕ) :
    (grav_accel data).rgpackage.dlnp_dlnr_pts k =
      (logPressure_fit data).pressure_coeffs 1 +
      2 * (logPressure_fit data).pressure_coeffs 2 *
        (extrapolate_radius data).ln_r k +
      3 * (logPressure_fit data).pressure_coeffs 3 *
        (extrapolate_radius data).ln_r k ^ 2 ∧
    (grav_accel data).rgpackage.dlnp_dlnr_fine_pts k =
      (logPressure_fit data).pressure_coeffs 1 +
      2 * (logPressure_fit data).pressure_coeffs 2 *
        (extrapolate_radius data).ln_r_fine k +
      3 * (logPressure_fit data).pressure_coeffs 3 *
        (extrapolate_radius data).ln_r_fine k ^ 2 ∧
    ∀ x : ℝ, dlnp_dlnr ((logPressure_fit data).pressure_coeffs) x =
      deriv (fun t => polyval 3 ((logPressure_fit data).pressure_coeffs) t) x := by
  refine ⟨?_, ?_, fun x => ?_⟩
  · exact dlnp_dlnr_eq ((logPressure_fit data).pressure_coeffs)
      ((extrapolate_radius data).ln_r k)
  · exact dlnp_dlnr_eq ((logPressure_fit data).pressure_coeffs)
      ((extrapolate_radius data).ln_r_fine k)
  · rw [(hasDerivAt_polyval_three ((logPressure_fit data).pressure_coeffs) x).deriv,
      dlnp_dlnr_eq]

/-- Claim C2: on both grids the returned gravitational-acceleration
quantity is exactly `-(kT_fit in erg) / m_p * dlnP/dlnr` — the signed value
of the hydrostatic formula; moreover that formula is strictly negative
whenever the fitted temperature and the log-pressure slope are positive, so
a negative result is passed through rather than absolute-valued or clamped. -/
theorem rg_hydrostatic_signed (data : ObsData) (k : ℕ) (T D : ℝ)
    (hT : 0 < T) (hD : 0 < D) :
    (grav_accel data).rgpackage.rg k =
      -((logTemp_fit data).temp_fit k * keV_in_erg) / mu_mp *
        dlnp_dlnr ((logPressure_fit data).pressure_coeffs)
          ((extrapolate_radius data).ln_r k) ∧
    (grav_accel data).rgpackage.rg_fine k =
      -((logTemp_fit data).temp_fit_fine k * keV_in_erg) / mu_mp *
        dlnp_dlnr ((logPressure_fit data).pressure_coeffs)
          ((extrapolate_radius data).ln_r_fine k) ∧
    -(T * keV_in_erg) / mu_mp * D < 0 := by
  refine ⟨rfl, rfl, ?_⟩
  have h1 : (0 : ℝ) < keV_in_erg := by norm_num [keV_in_erg]
  have h2 : (0 : ℝ) < mu_mp := by norm_num [mu_mp]
  have h3 : 0 < T * keV_in_erg / mu_mp * D := by positivity
  have e : -(T * keV_in_erg) / mu_mp * D = -(T * keV_in_erg / mu_mp * D) := by
    ring
  rw [e]
  linarith

/-- Witness for claim C2's theorem at the concrete table `exData`, index 0,
temperature 1 and slope 1. -/
theorem rg_hydrostatic_signed_witness :
    (grav_accel exData).rgpackage.rg 0 =
      -((logTemp_fit exData).temp_fit 0 * keV_in_erg) / mu_mp *
        dlnp_dlnr ((logPressure_fit exData).pressure_coeffs)
          ((extrapolate_radius exData).ln_r 0) ∧
    (grav_accel exData).rgpackage.rg_fine 0 =
      -((logTemp_fit exData).temp_fit_fine 0 * keV_in_erg) / mu_mp *
        dlnp_dlnr ((logPressure_fit exData).pressure_coeffs)
          ((extrapolate_radius exData).ln_r_fine 0) ∧
    -((1 : ℝ) * keV_in_erg) / mu_mp * 1 < 0 :=
  rg_hydrostatic_signed exData 0 1 1 one_pos one_pos

/-- Claim C3 counterexample: on a table with `Perr = Pitpl` and
`Txerr = Tx` (all log-space relative errors zero) the code's propagated
relative error is `sqrt(2·1² + 1²) = sqrt 3`, because the code squares
`exp(ln_perr) = Perr/Pitpl`, while the claim's formula
`sqrt(2·ln_perr² + ln_terr²)` evaluates to `0`. -/
theorem relerr_not_log_formula :
    (grav_accel exData).rgpackage.relerr 0 ≠
      Real.sqrt (2 * Real.log (exData.Perr 0 / exData.Pitpl 0) ^ 2 +
        Real.log (exData.Txerr 0 / exData.Tx 0) ^ 2) := by
  have hL : (grav_accel exData).rgpackage.relerr 0 = Real.sqrt 3 := by
    show Real.sqrt
      (2 * Real.exp (Real.log ((1 : ℝ) / 1)) ^ 2 +
        Real.exp (Real.log ((1 : ℝ) / 1)) ^ 2) = Real.sqrt 3
    norm_num
  have hR : Real.sqrt (2 * Real.log (exData.Perr 0 / exData.Pitpl 0) ^ 2 +
      Real.log (exData.Txerr 0 / exData.Tx 0) ^ 2) = 0 := by
    show Real.sqrt
      (2 * Real.log ((1 : ℝ) / 1) ^ 2 + Real.log ((1 : ℝ) / 1) ^ 2) = 0
    norm_num
  rw [hL, hR]
  exact ne_of_gt (Real.sqrt_pos.mpr (by norm_num))

/-- Claim C3 (as corrected): whenever the per-bin error ratios are
positive, the propagated relative error equals
`sqrt(2·(Perr/Pitpl)² + (Txerr/Tx)²)` — the code exponentiates the stored
log-space errors back to plain ratios before squaring — and the absolute
error equals `kT_fit/(μ m_p)` times the relative error. -/
theorem relerr_ratio_formula (data : ObsData) (k : ℕ)
    (hp : 0 < data.Perr k / data.Pitpl k)
    (ht : 0 < data.Txerr k / data.Tx k) :
    (grav_accel data).rgpackage.relerr k =
      Real.sqrt (2 * (data.Perr k / data.Pitpl k) ^ 2 +
        (data.Txerr k / data.Tx k) ^ 2) ∧
    (grav_accel data).rgpackage.rgerr k =
      (logTemp_fit data).temp_fit k * keV_in_erg / mu_mp *
        (grav_accel data).rgpackage.relerr k := by
  constructor
  · show Real.sqrt
      (2 * Real.exp (Real.log (data.Perr k / data.Pitpl k)) ^ 2 +
        Real.exp (Real.log (data.Txerr k / data.Tx k)) ^ 2) = _
    rw [Real.exp_log hp, Real.exp_log ht]
  · rfl

/-- Witness for claim C3's amended theorem at the concrete table `exData`
and index 0 (both error ratios equal 1 there). -/
theorem relerr_ratio_formula_witness :
    (grav_accel exData).rgpackage.relerr 0 =
      Real.sqrt (2 * (exData.Perr 0 / exData.Pitpl 0) ^ 2 +
        (exData.Txerr 0 / exData.Tx 0) ^ 2) ∧
    (grav_accel exData).rgpackage.rgerr 0 =
      (logTemp_fit exData).temp_fit 0 * keV_in_erg / mu_mp *
        (grav_accel exData).rgpackage.relerr 0 :=
  relerr_ratio_formula exData 0 (by norm_num [exData]) (by norm_num [exData])

/-- Claim C4: on both grids the cooling time is
`(3/2)·(1.89·P_fit)/(n_e²/1.07)/Λ(T_fit)` with the electron-density proxy
`n_e = P_fit / T_fit` — the fitted pressure over the fitted temperature,
not the observed density column — and the constants 1.89 and 1.07 exactly
as written. -/
theorem tcool_formula (data : ObsData) (k : ℕ) :
    (timescales data).tcool k =
      3 / 2 * (1.89 * (logPressure_fit data).pressure_fit k) /
        (((logPressure_fit data).pressure_fit k /
            (logTemp_fit data).temp_fit k) ^ 2 / 1.07) /
        coolingFunction ((logTemp_fit data).temp_fit k) ∧
    (timescales data).tcool_fine k =
      3 / 2 * (1.89 * (logPressure_fit data).pressure_fit_fine k) /
        (((logPressure_fit data).pressure_fit_fine k /
            (logTemp_fit data).temp_fit_fine k) ^ 2 / 1.07) /
        coolingFunction ((logTemp_fit data).temp_fit_fine k) ∧
    (timescales data).nelec k =
      (logPressure_fit data).pressure_fit k /
        (logTemp_fit data).temp_fit k ∧
    (timescales data).nelec_fine k =
      (logPressure_fit data).pressure_fit_fine k /
        (logTemp_fit data).temp_fit_fine k :=
  ⟨rfl, rfl, rfl, rfl⟩

/-- Claim C5 counterexample: at `g = 0` (which is `≤ 0`, and is reached
whenever the fitted log-pressure slope vanishes, e.g. for a constant
observed pressure profile) the freefall computation returns `+inf`
(`np.sqrt(2/0) = inf` under the suppressed divide warning), not `nan`. -/
theorem freefall_zero_g_not_nan :
    npFreefall 0 1 = NVal.posInf ∧ NVal.posInf ≠ NVal.nan := by
  constructor
  · norm_num [npFreefall, npDiv, npSqrt, npMul]
  · intro h
    exact NVal.noConfusion h

/-- Claim C5 (as corrected): on both grids the freefall time is the numpy
evaluation of `sqrt(2/g)·r`; for `g > 0` this is the finite value
`sqrt(2/g)·r`, for `g < 0` it is `nan` (which then propagates), and at the
boundary `g = 0` (with a positive radius) it is `+inf`, not `nan`. -/
theorem freefall_time_semantics (data : ObsData) (k : ℕ)
    (gpos gneg r : ℝ) (h1 : 0 < gpos) (h2 : gneg < 0) (hr : 0 < r) :
    (timescales data).tff k =
      npFreefall ((grav_accel data).rgpackage.rg k)
        ((extrapolate_radius data).r k) ∧
    (timescales data).tff_fine k =
      npFreefall ((grav_accel data).rgpackage.rg_fine k)
        ((extrapolate_radius data).r_fine k) ∧
    npFreefall gpos r = NVal.fin (Real.sqrt (2 / gpos) * r) ∧
    npFreefall gneg r = NVal.nan ∧
    npFreefall 0 r = NVal.posInf := by
  refine ⟨rfl, rfl, ?_, ?_, ?_⟩
  · have hne : gpos ≠ 0 := ne_of_gt h1
    have hnn : ¬ (2 / gpos < 0) := not_lt.mpr (le_of_lt (div_pos two_pos h1))
    simp [npFreefall, npDiv, hne, npSqrt, hnn, npMul]
  · have hne : gneg ≠ 0 := ne_of_lt h2
    have hneg : 2 / gneg < 0 := div_neg_of_pos_of_neg two_pos h2
    simp [npFreefall, npDiv, hne, npSqrt, hneg, npMul]
  · norm_num [npFreefall, npDiv, npSqrt, npMul, hr]

/-- Witness for claim C5's amended theorem at the concrete table `exData`,
index 0, `g = 2`, `g = -1` and `r = 5`. -/
theorem freefall_time_semantics_witness :
    (timescales exData).tff 0 =
      npFreefall ((grav_accel exData).rgpackage.rg 0)
        ((extrapolate_radius exData).r 0) ∧
    (timescales exData).tff_fine 0 =
      npFreefall ((grav_accel exData).rgpackage.rg_fine 0)
        ((extrapolate_radius exData).r_fine 0) ∧
    npFreefall 2 5 = NVal.fin (Real.sqrt (2 / 2) * 5) ∧
    npFreefall (-1) 5 = NVal.nan ∧
    npFreefall 0 5 = NVal.posInf :=
  freefall_time_semantics exData 0 2 (-1) 5 (by norm_num) (by norm_num)
    (by norm_num)

/-- Claim C6: for every `kT > 0` the cooling function is
`(C1·kT^(-1.7) + C2·kT^(0.5) + C3)·1e-22` with `C1 = 8.6e-3` and
`C3 = 6.3e-2` (and the source's `C2 = 5.8e-2`), and at `kT = 1` it equals
exactly `(C1 + C2 + C3)·1e-22`. -/
theorem coolingFunction_spec (kT : ℝ) (_h : 0 < kT) :
    coolingFunction kT =
      (8.6e-3 * kT ^ (-1.7 : ℝ) + 5.8e-2 * kT ^ (0.5 : ℝ) + 6.3e-2) *
        1.0e-22 ∧
    coolingFunction 1 = (8.6e-3 + 5.8e-2 + 6.3e-2) * 1.0e-22 := by
  refine ⟨rfl, ?_⟩
  show ((8.6e-3 : ℝ) * (1 : ℝ) ^ (-1.7 : ℝ) + 5.8e-2 * (1 : ℝ) ^ (0.5 : ℝ) +
      6.3e-2) * 1.0e-22 = _
  rw [Real.one_rpow, Real.one_rpow]
  ring

/-- Witness for claim C6's theorem at `kT = 1`. -/
theorem coolingFunction_spec_witness :
    coolingFunction 1 =
      (8.6e-3 * (1 : ℝ) ^ (-1.7 : ℝ) + 5.8e-2 * (1 : ℝ) ^ (0.5 : ℝ) +
        6.3e-2) * 1.0e-22 ∧
    coolingFunction 1 = (8.6e-3 + 5.8e-2 + 6.3e-2) * 1.0e-22 :=
  coolingFunction_spec 1 one_pos

/-- Claim C9 counterexample: a table with a single bin has `N = 1 ≤ 3`,
yet the polynomial fit does not fail — `poly.polyfit` only warns on a
rank-deficient system and still returns coefficients; the repository adds
no `N > deg` check. -/
theorem fit_small_N_no_error :
    oneBinData.N ≤ 3 ∧ ¬ fit_polynomial_fails oneBinData 3 := by
  constructor
  · show (1 : ℕ) ≤ 3
    norm_num
  · show ¬ (oneBinData.N = 0)
    show ¬ ((1 : ℕ) = 0)
    norm_num

/-- Claim C9 (as corrected): the fit never fails with `InsufficientData` —
for any non-empty table it returns a package for every degree, including
`N ≤ deg` (numpy only issues a `RankWarning` there); the returned
coefficients are ordered lowest power first: the fitted curve is
`exp(Σ_k c_k (ln r)^k)`, and on exact polynomial data with an invertible
normal matrix the fit returns precisely the generating coefficients, index
`k` multiplying the `k`-th power. -/
theorem fit_polynomial_total_lowest_power_first (data : ObsData)
    (lny : ℕ → ℝ) (deg n k : ℕ) (x y c : ℕ → ℝ)
    (hN : 1 ≤ data.N)
    (hdet : IsUnit
      ((polyfitMatrix n deg x).transpose * polyfitMatrix n deg x).det)
    (hy : ∀ i, i < n → y i = polyval deg c (x i))
    (hk : k < deg + 1) :
    ¬ fit_polynomial_fails data deg ∧
    (∀ j, (fit_polynomial data lny deg).fit j =
      Real.exp (polyval deg (fit_polynomial data lny deg).coeffs
        ((extrapolate_radius data).ln_r j))) ∧
    polyfit n x y deg k = c k := by
  refine ⟨?_, fun j => rfl, polyfit_recovers n deg x y c hdet hy k hk⟩
  intro hfail
  rw [fit_polynomial_fails] at hfail
  omega

/-- Witness for claim C9's amended theorem: the concrete table `exData`
(two bins), and the concrete degree-1 recovery instance `exX`/`exY`/`exC`,
whose normal matrix has determinant 1. -/
theorem fit_polynomial_total_witness :
    ¬ fit_polynomial_fails exData 1 ∧
    (∀ j, (fit_polynomial exData (fun _ => 0) 1).fit j =
      Real.exp (polyval 1 (fit_polynomial exData (fun _ => 0) 1).coeffs
        ((extrapolate_radius exData).ln_r j))) ∧
    polyfit 2 exX exY 1 0 = exC 0 := by
  have hdet : IsUnit
      ((polyfitMatrix 2 1 exX).transpose * polyfitMatrix 2 1 exX).det := by
    have h : ((polyfitMatrix 2 1 exX).transpose * polyfitMatrix 2 1 exX).det
        = 1 := by
      simp [Matrix.det_fin_two, Matrix.mul_apply, Matrix.transpose_apply,
        polyfitMatrix, Fin.sum_univ_two, exX]
    rw [h]
    exact isUnit_one
  have hy : ∀ i, i < 2 → exY i = polyval 1 exC (exX i) := by
    intro i _
    simp [exY, exC, exX, polyval, Finset.sum_range_succ]
  exact fit_polynomial_total_lowest_power_first exData (fun _ => 0) 1 2 0
    exX exY exC (by norm_num [exData]) hdet hy (by norm_num)

/-- Claim C10: every computed output of the pipeline — the temperature and
pressure fits and coefficients, the gravitational acceleration and its
error, the cooling and freefall times and the precipitation ratio — is
independent of the observed electron-density columns: replacing `nelec`
and `neerr` by arbitrary values leaves `timescales` unchanged, because the
cooling time uses the fitted proxy `P_fit / T_fit` and no computation ever
reads those columns. -/
theorem pipeline_independent_of_density_columns (data : ObsData)
    (ne1 ne2 : ℕ → ℝ) :
    timescales { data with nelec := ne1, neerr := ne2 } = timescales data :=
  rfl

end Rainmaker
